import Mathlib

/-!
# Verification of `packages/x-charts/src/ScatterChart/Scatter.tsx`

Shallow embedding of the `Scatter` component of MUI X Charts.  Numeric
values (domain values, pixel coordinates, marker sizes, opacities) are
modelled by `ℚ`; string/number identifiers by `ℤ ⊕ String`.  The external
collaborators that the file imports (`getIsHighlighted`, `getIsFaded`,
`useInteractionItemProps`) are taken as function parameters, exactly as the
component receives them through imports; the scale object is modelled from
the spec (see `D3Scale`).
-/

namespace ScatterChart

/-- A `string | number` identifier, as used for point ids and series ids. -/
abbrev JSId := ℤ ⊕ String

/-- One data point of a scatter series: numeric x/y domain values and an id
(`series.data[i]` in the source). -/
structure ScatterPoint where
  x : ℚ
  y : ℚ
  id : JSId
  deriving DecidableEq, Repr

/-- The possible values of the `highlighted` / `faded` fields of a
highlight scope (`'none' | 'item' | 'series' | 'global'`). -/
inductive HighlightOpt where
  | none
  | item
  | series
  | global
  deriving DecidableEq, Repr

/-- A fully-specified highlight scope, as consumed by the highlight
predicates. -/
structure HighlightScope where
  highlighted : HighlightOpt
  faded : HighlightOpt
  deriving DecidableEq, Repr

/-- A highlight scope as it appears on a series: both fields optional
(`HighlightScope` in TypeScript has optional fields). -/
structure HighlightScopeInput where
  highlighted : Option HighlightOpt
  faded : Option HighlightOpt
  deriving DecidableEq, Repr

/-- The scatter series descriptor (`DefaultizedScatterSeriesType`): an
ordered sequence of data points, a series id, and the optional
highlight-scope / hover-disabling configuration used by the component. -/
structure DefaultizedScatterSeriesType where
  id : JSId
  data : List ScatterPoint
  highlightScope : Option HighlightScopeInput
  disableHover : Option Bool
  deriving DecidableEq, Repr

/-- `{ type: 'scatter', seriesId, dataIndex }` — the scatter item
identifier handed to highlight predicates and to the click callback
(`ScatterItemIdentifier`). -/
structure ScatterItemIdentifier where
  type : String
  seriesId : JSId
  dataIndex : ℕ
  deriving DecidableEq, Repr

/-- Modelled from the spec: "Scale function: pure function mapping a domain
value to a pixel coordinate, plus a queryable pixel range; owned
externally".  The source only uses a scale through
`getValueToPositionMapper(scale)` and `scale.range()`, so a scale is the
pair of those two views.  (`hooks/useScale` itself is outside the given
source tree.) -/
structure D3Scale where
  mapper : ℚ → ℚ
  range : List ℚ

/-- Modelled from the spec: the value-to-position mapper derived from a
scale is its pure domain-value → pixel-coordinate function
(`getValueToPositionMapper` from `hooks/useScale`, not in the given
source tree). -/
def getValueToPositionMapper (scale : D3Scale) : ℚ → ℚ :=
  scale.mapper

/-- `Math.min(...r)` for a nonempty spread array `r`; `Option.none` stands
for the `+Infinity` that JavaScript returns on an empty array. -/
def jsMin : List ℚ → Option ℚ
  | [] => Option.none
  | a :: rest => Option.some (rest.foldl min a)

/-- `Math.max(...r)` for a nonempty spread array `r`; `Option.none` stands
for the `-Infinity` that JavaScript returns on an empty array. -/
def jsMax : List ℚ → Option ℚ
  | [] => Option.none
  | a :: rest => Option.some (rest.foldl max a)

/-- `m <= x` where `m` came from `jsMin`: `+Infinity <= x` is false for
every (finite) `x`. -/
def leFromMin : Option ℚ → ℚ → Bool
  | Option.none, _ => false
  | Option.some m, x => decide (m ≤ x)

/-- `x <= m` where `m` came from `jsMax`: `x <= -Infinity` is false for
every (finite) `x`. -/
def leToMax : ℚ → Option ℚ → Bool
  | _, Option.none => false
  | x, Option.some m => decide (x ≤ m)

/-- The per-point record built by the `cleanData` loop: pixel position,
id, original index, highlight flags, and the interaction props obtained
from `getInteractionItemProps`.  `P` is the (opaque) type of interaction
props. -/
structure CleanPoint (P : Type) where
  x : ℚ
  y : ℚ
  id : JSId
  dataIndex : ℕ
  isHighlighted : Bool
  isFaded : Bool
  interactionProps : P
  deriving DecidableEq, Repr

/-- The interaction context read via `React.useContext(InteractionContext)`:
the currently pointed-at item (if any) and the voronoi flag.  `Item` is the
(opaque) type of item identifiers stored in the context. -/
structure InteractionState (Item : Type) where
  item : Option Item
  useVoronoiInteraction : Bool
  deriving DecidableEq, Repr

/-- The external highlight predicates and props factory imported from
`hooks/useInteractionItemProps` (outside the given source tree): the
component only applies them, so they are bundled as opaque functions. -/
structure Externals (Item P : Type) where
  getIsHighlighted : Option Item → ScatterItemIdentifier → HighlightScope → Bool
  getIsFaded : Option Item → ScatterItemIdentifier → HighlightScope → Bool
  useInteractionItemProps : HighlightScope → Bool → ScatterItemIdentifier → P

/-- `{ highlighted: 'item', faded: 'global', ...series.highlightScope }`:
the series' scope (when present) field-wise overrides the defaults. -/
def mergeHighlightScope (s : Option HighlightScopeInput) : HighlightScope :=
  match s with
  | Option.none => { highlighted := HighlightOpt.item, faded := HighlightOpt.global }
  | Option.some p =>
      { highlighted := p.highlighted.getD HighlightOpt.item
        faded := p.faded.getD HighlightOpt.global }

/-- The body of one iteration of the `cleanData` loop for the point at
index `i`: map to pixel coordinates, test the inclusive range, and when in
range build the record (with `isFaded` short-circuited on
`!isHighlighted`). -/
def cleanStep {Item P : Type} (ext : Externals Item P)
    (getXPosition getYPosition : ℚ → ℚ)
    (minXRange maxXRange minYRange maxYRange : Option ℚ)
    (seriesId : JSId) (item : Option Item) (highlightScope : HighlightScope)
    (getInteractionItemProps : ScatterItemIdentifier → P)
    (i : ℕ) (scatterPoint : ScatterPoint) : Option (CleanPoint P) :=
  let x := getXPosition scatterPoint.x
  let y := getYPosition scatterPoint.y
  let isInRange := leFromMin minXRange x && leToMax x maxXRange &&
    leFromMin minYRange y && leToMax y maxYRange
  let pointCtx : ScatterItemIdentifier :=
    { type := "scatter", seriesId := seriesId, dataIndex := i }
  if isInRange then
    let isHighlighted := ext.getIsHighlighted item pointCtx highlightScope
    Option.some
      { x := x
        y := y
        isHighlighted := isHighlighted
        isFaded := !isHighlighted && ext.getIsFaded item pointCtx highlightScope
        interactionProps := getInteractionItemProps pointCtx
        id := scatterPoint.id
        dataIndex := i }
  else
    Option.none

/-- The `for` loop of `cleanData`, as structural recursion over the data
list, carrying the next index `i`. -/
def cleanLoop {Item P : Type} (ext : Externals Item P)
    (getXPosition getYPosition : ℚ → ℚ)
    (minXRange maxXRange minYRange maxYRange : Option ℚ)
    (seriesId : JSId) (item : Option Item) (highlightScope : HighlightScope)
    (getInteractionItemProps : ScatterItemIdentifier → P)
    (i : ℕ) : List ScatterPoint → List (CleanPoint P)
  | [] => []
  | p :: rest =>
      match cleanStep ext getXPosition getYPosition
          minXRange maxXRange minYRange maxYRange
          seriesId item highlightScope getInteractionItemProps i p with
      | Option.none =>
          cleanLoop ext getXPosition getYPosition
            minXRange maxXRange minYRange maxYRange
            seriesId item highlightScope getInteractionItemProps (i + 1) rest
      | Option.some r =>
          r :: cleanLoop ext getXPosition getYPosition
            minXRange maxXRange minYRange maxYRange
            seriesId item highlightScope getInteractionItemProps (i + 1) rest

/-- The `cleanData` computation (the body of the `React.useMemo`): derive
the position mappers and the range bounds from the scales, then run the
loop over `series.data`. -/
def cleanData {Item P : Type} (ext : Externals Item P)
    (xScale yScale : D3Scale)
    (series : DefaultizedScatterSeriesType)
    (item : Option Item) (highlightScope : HighlightScope)
    (getInteractionItemProps : ScatterItemIdentifier → P) :
    List (CleanPoint P) :=
  let getXPosition := getValueToPositionMapper xScale
  let getYPosition := getValueToPositionMapper yScale
  let xRange := xScale.range
  let yRange := yScale.range
  let minXRange := jsMin xRange
  let maxXRange := jsMax xRange
  let minYRange := jsMin yRange
  let maxYRange := jsMax yRange
  cleanLoop ext getXPosition getYPosition
    minXRange maxXRange minYRange maxYRange
    series.id item highlightScope getInteractionItemProps 0 series.data

/-- One rendered `<circle>` element with the attributes the component sets.
`P` is the interaction-props type, `C` the type of the `onItemClick`
callback value; `onClick` holds the attached handler's closure content
(the callback together with the `ScatterItemIdentifier` it will pass),
`Option.none` when no handler is attached. -/
structure Circle (P C : Type) where
  key : JSId
  cx : ℚ
  cy : ℚ
  r : ℚ
  transform : ℚ × ℚ
  fill : String
  opacity : ℚ
  onClick : Option (C × ScatterItemIdentifier)
  cursor : String
  interactionProps : P
  deriving DecidableEq, Repr

/-- The `<g>` group returned by the component. -/
structure GroupElement (P C : Type) where
  circles : List (Circle P C)
  deriving DecidableEq, Repr

/-- `ScatterProps`: series descriptor, the two scales, marker size, fill
color, and the optional click callback. -/
structure ScatterProps (C : Type) where
  series : DefaultizedScatterSeriesType
  xScale : D3Scale
  yScale : D3Scale
  markerSize : ℚ
  color : String
  onItemClick : Option C

/-- The `<circle>` built for one `dataPoint` of `cleanData`:
radius `(isHighlighted ? 1.2 : 1) * markerSize`, translation to the
pixel position, opacity `(isFaded && 0.3) || 1`, handler present iff
`onItemClick` is, cursor `'pointer'` iff `onItemClick` is provided. -/
def renderCircle {P C : Type} (markerSize : ℚ) (color : String) (seriesId : JSId)
    (onItemClick : Option C) (dataPoint : CleanPoint P) : Circle P C :=
  { key := dataPoint.id
    cx := 0
    cy := 0
    r := (if dataPoint.isHighlighted then 12/10 else 1) * markerSize
    transform := (dataPoint.x, dataPoint.y)
    fill := color
    opacity := if dataPoint.isFaded then 3/10 else 1
    onClick := onItemClick.map fun cb =>
      (cb, { type := "scatter", seriesId := seriesId,
             dataIndex := dataPoint.dataIndex })
    cursor := if onItemClick.isSome then "pointer" else "unset"
    interactionProps := dataPoint.interactionProps }

/-- The `Scatter` component: merge the highlight scope over its defaults,
read the interaction context, compute `cleanData`, and map each record to
a `<circle>` inside one `<g>`. -/
def Scatter {Item P C : Type} (ext : Externals Item P)
    (props : ScatterProps C) (ctx : InteractionState Item) : GroupElement P C :=
  let highlightScope := mergeHighlightScope props.series.highlightScope
  let skipInteractionHandlers :=
    ctx.useVoronoiInteraction || props.series.disableHover.getD false
  let getInteractionItemProps := ext.useInteractionItemProps highlightScope
    skipInteractionHandlers
  let cd := cleanData ext props.xScale props.yScale props.series ctx.item
    highlightScope getInteractionItemProps
  { circles := cd.map
      (renderCircle props.markerSize props.color props.series.id props.onItemClick) }

/-- A full render pass threading the externally owned state through the
component: the interaction context and the series descriptor as they stand
after the render, alongside the produced group.  The component translates
to a pure reader of both (no statement of its body assigns to either), so
the pass returns them unchanged next to the output. -/
def renderPass {Item P C : Type} (ext : Externals Item P)
    (props : ScatterProps C) (ctx : InteractionState Item) :
    GroupElement P C × InteractionState Item × DefaultizedScatterSeriesType :=
  (Scatter ext props ctx, ctx, props.series)

/-- A `React.useMemo` cache cell: the dependency tuple of the previous
render and the value computed from it. -/
structure MemoCell (D V : Type) where
  deps : D
  value : V

/-- `React.useMemo`: when the framework's dependency comparison reports a
hit (`hit = true`, standing for `Object.is` equality of the stored and
current dependency arrays) the cached value is reused, otherwise the value
is recomputed from the current dependencies. -/
def useMemo {D V : Type} (compute : D → V) (deps : D)
    (cell : Option (MemoCell D V)) (hit : Bool) : V × MemoCell D V :=
  match cell, hit with
  | Option.some c, true => (c.value, c)
  | _, _ => (compute deps, { deps := deps, value := compute deps })

/-- The dependency tuple of the `cleanData` memo:
`[xScale, yScale, series.data, series.id, item, highlightScope,
getInteractionItemProps]`. -/
abbrev CleanDeps (Item P : Type) :=
  D3Scale × D3Scale × List ScatterPoint × JSId × Option Item × HighlightScope ×
    (ScatterItemIdentifier → P)

/-- The memoized computation as a function of its dependency tuple.  The
dependency array stores `series.data` and `series.id` rather than the whole
series object, so the series passed to `cleanData` here is rebuilt from
exactly those two entries (its remaining fields are not read by
`cleanData`, see `cleanData_only_reads_id_data`). -/
def cleanDataOfDeps {Item P : Type} (ext : Externals Item P)
    (d : CleanDeps Item P) : List (CleanPoint P) :=
  cleanData ext d.1 d.2.1
    { id := d.2.2.2.1, data := d.2.2.1
      highlightScope := Option.none, disableHover := Option.none }
    d.2.2.2.2.1 d.2.2.2.2.2.1 d.2.2.2.2.2.2

/-! ## Helper lemmas -/

section Lemmas

variable {Item P C : Type} {ext : Externals Item P} {gx gy : ℚ → ℚ}
  {a b c d : Option ℚ} {sid : JSId} {item : Option Item}
  {hs : HighlightScope} {gip : ScatterItemIdentifier → P}

theorem cleanLoop_nil (i : ℕ) :
    cleanLoop ext gx gy a b c d sid item hs gip i [] = [] := rfl

theorem cleanLoop_cons (i : ℕ) (p : ScatterPoint) (rest : List ScatterPoint) :
    cleanLoop ext gx gy a b c d sid item hs gip i (p :: rest) =
      match cleanStep ext gx gy a b c d sid item hs gip i p with
      | Option.none => cleanLoop ext gx gy a b c d sid item hs gip (i + 1) rest
      | Option.some r =>
          r :: cleanLoop ext gx gy a b c d sid item hs gip (i + 1) rest := rfl

theorem cleanLoop_eq_filterMap (data : List ScatterPoint) : ∀ i : ℕ,
    cleanLoop ext gx gy a b c d sid item hs gip i data =
      (data.enumFrom i).filterMap
        (fun q => cleanStep ext gx gy a b c d sid item hs gip q.1 q.2) := by
  induction data with
  | nil => intro i; rfl
  | cons p rest ih =>
      intro i
      rw [cleanLoop_cons,
        show (p :: rest).enumFrom i = (i, p) :: rest.enumFrom (i + 1) from rfl,
        List.filterMap_cons]
      cases hstep : cleanStep ext gx gy a b c d sid item hs gip i p with
      | none => simpa using ih (i + 1)
      | some r => simpa using ih (i + 1)

theorem cleanStep_some_fields {i : ℕ} {p : ScatterPoint} {r : CleanPoint P}
    (h : cleanStep ext gx gy a b c d sid item hs gip i p = Option.some r) :
    r.x = gx p.x ∧ r.y = gy p.y ∧ r.id = p.id ∧ r.dataIndex = i ∧
    r.isHighlighted = ext.getIsHighlighted item
      { type := "scatter", seriesId := sid, dataIndex := i } hs ∧
    r.isFaded = (!r.isHighlighted && ext.getIsFaded item
      { type := "scatter", seriesId := sid, dataIndex := i } hs) ∧
    r.interactionProps = gip { type := "scatter", seriesId := sid, dataIndex := i } := by
  simp only [cleanStep] at h
  split at h
  · cases h
    simp
  · cases h

theorem cleanStep_isSome_iff {i : ℕ} {p : ScatterPoint} :
    (∃ r, cleanStep ext gx gy a b c d sid item hs gip i p = Option.some r) ↔
      (leFromMin a (gx p.x) && leToMax (gx p.x) b && leFromMin c (gy p.y) &&
        leToMax (gy p.y) d) = true := by
  simp only [cleanStep]
  split
  · rename_i h
    simpa using h
  · rename_i h
    simpa using h

theorem mem_enumFrom_zero {α : Type} {l : List α} {q : ℕ × α} :
    q ∈ l.enumFrom 0 ↔ l.get? q.1 = Option.some q.2 := by
  rw [List.mem_iff_get?]
  constructor
  · rintro ⟨i, hi⟩
    rw [List.get?_enumFrom] at hi
    rcases Option.map_eq_some'.mp hi with ⟨p, hp, hq⟩
    rw [← hq]
    simpa using hp
  · intro h
    refine ⟨q.1, ?_⟩
    rw [List.get?_enumFrom, h]
    simp

theorem mem_cleanData {r : CleanPoint P} {xScale yScale : D3Scale}
    {series : DefaultizedScatterSeriesType} :
    r ∈ cleanData ext xScale yScale series item hs gip ↔
      ∃ j p, series.data.get? j = Option.some p ∧
        cleanStep ext xScale.mapper yScale.mapper (jsMin xScale.range)
          (jsMax xScale.range) (jsMin yScale.range) (jsMax yScale.range)
          series.id item hs gip j p = Option.some r := by
  unfold cleanData getValueToPositionMapper
  rw [cleanLoop_eq_filterMap]
  simp only [List.mem_filterMap]
  constructor
  · rintro ⟨q, hq, hstep⟩
    rw [mem_enumFrom_zero] at hq
    exact ⟨q.1, q.2, hq, hstep⟩
  · rintro ⟨j, p, hp, hstep⟩
    exact ⟨(j, p), mem_enumFrom_zero.mpr hp, hstep⟩

theorem cleanLoop_key_sublist (data : List ScatterPoint) : ∀ i : ℕ,
    List.Sublist
      ((cleanLoop ext gx gy a b c d sid item hs gip i data).map
        (fun r => (r.dataIndex, r.id)))
      ((data.enumFrom i).map (fun q => (q.1, q.2.id))) := by
  induction data with
  | nil => intro i; simp [cleanLoop_nil]
  | cons p rest ih =>
      intro i
      rw [cleanLoop_cons,
        show (p :: rest).enumFrom i = (i, p) :: rest.enumFrom (i + 1) from rfl,
        List.map_cons]
      cases hstep : cleanStep ext gx gy a b c d sid item hs gip i p with
      | none => exact List.Sublist.cons _ (ih (i + 1))
      | some r =>
          have hf := cleanStep_some_fields hstep
          simp only [List.map_cons, hf.2.2.1, hf.2.2.2.1]
          exact List.Sublist.cons₂ _ (ih (i + 1))

theorem mem_Scatter_circles {props : ScatterProps C} {ctx : InteractionState Item}
    {c : Circle P C} :
    c ∈ (Scatter ext props ctx).circles ↔
      ∃ r ∈ cleanData ext props.xScale props.yScale props.series ctx.item
          (mergeHighlightScope props.series.highlightScope)
          (ext.useInteractionItemProps (mergeHighlightScope props.series.highlightScope)
            (ctx.useVoronoiInteraction || props.series.disableHover.getD false)),
        c = renderCircle props.markerSize props.color props.series.id
          props.onItemClick r := by
  simp only [Scatter, List.mem_map]
  constructor
  · rintro ⟨r, hr, hcr⟩
    exact ⟨r, hr, hcr.symm⟩
  · rintro ⟨r, hr, hcr⟩
    exact ⟨r, hr, hcr.symm⟩

theorem cleanData_only_reads_id_data (xScale yScale : D3Scale)
    (s t : DefaultizedScatterSeriesType) (hid : s.id = t.id)
    (hdata : s.data = t.data) :
    cleanData ext xScale yScale s item hs gip =
      cleanData ext xScale yScale t item hs gip := by
  unfold cleanData
  rw [hid, hdata]

end Lemmas

/-! ## Concrete fixtures (used by the witnesses) -/

/-- Externals over `Item = Unit`, `P = Unit` whose predicates hold
everywhere. -/
def extW : Externals Unit Unit :=
  { getIsHighlighted := fun _ _ _ => true
    getIsFaded := fun _ _ _ => true
    useInteractionItemProps := fun _ _ _ => () }

/-- Externals over `Item = Unit`, `P = Unit` whose predicates hold
nowhere. -/
def extW0 : Externals Unit Unit :=
  { getIsHighlighted := fun _ _ _ => false
    getIsFaded := fun _ _ _ => false
    useInteractionItemProps := fun _ _ _ => () }

/-- Identity x scale with pixel range `[0, 100]`. -/
def xScaleW : D3Scale := { mapper := fun q => q, range := [0, 100] }

/-- Identity y scale with pixel range `[0, 50]`. -/
def yScaleW : D3Scale := { mapper := fun q => q, range := [0, 50] }

/-- An in-range sample point. -/
def p0W : ScatterPoint := { x := 10, y := 20, id := Sum.inl 1 }

/-- An out-of-range sample point (x maps to 200 > 100). -/
def p1W : ScatterPoint := { x := 200, y := 20, id := Sum.inl 2 }

/-- A two-point sample series. -/
def seriesW : DefaultizedScatterSeriesType :=
  { id := Sum.inl 7, data := [p0W, p1W], highlightScope := Option.none
    disableHover := Option.none }

/-- The default highlight scope. -/
def hsW : HighlightScope :=
  { highlighted := HighlightOpt.item, faded := HighlightOpt.global }

/-- A trivial interaction-props factory. -/
def gipW : ScatterItemIdentifier → Unit := fun _ => ()

/-- Sample props with a click callback provided. -/
def propsW : ScatterProps Unit :=
  { series := seriesW, xScale := xScaleW, yScale := yScaleW, markerSize := 5
    color := "red", onItemClick := Option.some () }

/-- A sample interaction context. -/
def ctxW : InteractionState Unit :=
  { item := Option.some (), useVoronoiInteraction := false }

/-- The record `cleanData` produces for `p0W` under `extW`. -/
def recordW : CleanPoint Unit :=
  { x := 10, y := 20, id := Sum.inl 1, dataIndex := 0, isHighlighted := true
    isFaded := false, interactionProps := () }

/-! ## Claim theorems -/

/-- C1: for every series, pair of scales and interaction inputs, the data
point at index `i` produces a record in `cleanData` if and only if its
mapped pixel position `(x, y)` satisfies
`min(xScale.range()) <= x <= max(xScale.range())` and
`min(yScale.range()) <= y <= max(yScale.range())`, boundaries inclusive;
points outside this range are silently excluded (`cleanData` is a total
function, so no error is raised for them). -/
theorem C1_rendered_iff_in_range {Item P : Type} (ext : Externals Item P)
    (xScale yScale : D3Scale) (series : DefaultizedScatterSeriesType)
    (item : Option Item) (hs : HighlightScope) (gip : ScatterItemIdentifier → P)
    (i : ℕ) (p : ScatterPoint) (mx Mx my My : ℚ)
    (hp : series.data.get? i = Option.some p)
    (hmx : jsMin xScale.range = Option.some mx)
    (hMx : jsMax xScale.range = Option.some Mx)
    (hmy : jsMin yScale.range = Option.some my)
    (hMy : jsMax yScale.range = Option.some My) :
    (∃ r ∈ cleanData ext xScale yScale series item hs gip, r.dataIndex = i) ↔
      (mx ≤ getValueToPositionMapper xScale p.x ∧
        getValueToPositionMapper xScale p.x ≤ Mx ∧
        my ≤ getValueToPositionMapper yScale p.y ∧
        getValueToPositionMapper yScale p.y ≤ My) := by
  constructor
  · rintro ⟨r, hr, hri⟩
    rcases mem_cleanData.mp hr with ⟨j, q, hq, hstep⟩
    have hji : j = i := by
      have hdj := (cleanStep_some_fields hstep).2.2.2.1
      rw [hri] at hdj
      exact hdj.symm
    subst hji
    have hqp : q = p := by
      rw [hq] at hp
      exact Option.some.inj hp
    subst hqp
    have hin := cleanStep_isSome_iff.mp ⟨r, hstep⟩
    rw [hmx, hMx, hmy, hMy] at hin
    simp only [leFromMin, leToMax, Bool.and_eq_true, decide_eq_true_eq] at hin
    exact ⟨hin.1.1.1, hin.1.1.2, hin.1.2, hin.2⟩
  · rintro ⟨h1, h2, h3, h4⟩
    have hin : (leFromMin (jsMin xScale.range) (xScale.mapper p.x) &&
        leToMax (xScale.mapper p.x) (jsMax xScale.range) &&
        leFromMin (jsMin yScale.range) (yScale.mapper p.y) &&
        leToMax (yScale.mapper p.y) (jsMax yScale.range)) = true := by
      rw [hmx, hMx, hmy, hMy]
      simp only [leFromMin, leToMax, Bool.and_eq_true, decide_eq_true_eq]
      exact ⟨⟨⟨h1, h2⟩, h3⟩, h4⟩
    obtain ⟨r, hstep⟩ := cleanStep_isSome_iff.mpr hin
    exact ⟨r, mem_cleanData.mpr ⟨i, p, hp, hstep⟩,
      (cleanStep_some_fields hstep).2.2.2.1⟩

/-- Witness for C1 at the concrete in-range point `p0W` of `seriesW`. -/
theorem C1_witness :
    (seriesW.data.get? 0 = Option.some p0W ∧
      jsMin xScaleW.range = Option.some 0 ∧
      jsMax xScaleW.range = Option.some 100 ∧
      jsMin yScaleW.range = Option.some 0 ∧
      jsMax yScaleW.range = Option.some 50) ∧
    ((∃ r ∈ cleanData extW xScaleW yScaleW seriesW (Option.some ()) hsW gipW,
        r.dataIndex = 0) ↔
      ((0 : ℚ) ≤ getValueToPositionMapper xScaleW p0W.x ∧
        getValueToPositionMapper xScaleW p0W.x ≤ 100 ∧
        (0 : ℚ) ≤ getValueToPositionMapper yScaleW p0W.y ∧
        getValueToPositionMapper yScaleW p0W.y ≤ 50)) :=
  ⟨⟨by decide, by decide, by decide, by decide, by decide⟩,
    C1_rendered_iff_in_range extW xScaleW yScaleW seriesW (Option.some ()) hsW gipW
      0 p0W 0 100 0 50 (by decide) (by decide) (by decide) (by decide) (by decide)⟩

/-- Witness circle: the circle `Scatter` renders for `recordW` under the
fixture props. -/
def circleW : Circle Unit Unit :=
  renderCircle propsW.markerSize propsW.color propsW.series.id propsW.onItemClick
    recordW

/-- C2: every rendered circle comes from a record whose pixel coordinates
equal the value-to-position mappers of the two scales applied to the
underlying point's domain values, and the circle is translated to exactly
those coordinates. -/
theorem C2_position_eq_mapper {Item P C : Type} (ext : Externals Item P)
    (props : ScatterProps C) (ctx : InteractionState Item) :
    ∀ c ∈ (Scatter ext props ctx).circles,
      ∃ r ∈ cleanData ext props.xScale props.yScale props.series ctx.item
          (mergeHighlightScope props.series.highlightScope)
          (ext.useInteractionItemProps (mergeHighlightScope props.series.highlightScope)
            (ctx.useVoronoiInteraction || props.series.disableHover.getD false)),
        ∃ p, props.series.data.get? r.dataIndex = Option.some p ∧
          r.x = getValueToPositionMapper props.xScale p.x ∧
          r.y = getValueToPositionMapper props.yScale p.y ∧
          c.transform = (r.x, r.y) := by
  intro c hc
  rcases mem_Scatter_circles.mp hc with ⟨r, hr, hcr⟩
  rcases mem_cleanData.mp hr with ⟨j, p, hp, hstep⟩
  have hf := cleanStep_some_fields hstep
  refine ⟨r, hr, p, ?_, hf.1, hf.2.1, ?_⟩
  · rw [hf.2.2.2.1]
    exact hp
  · rw [hcr]
    rfl

/-- Witness for C2 at the concrete circle rendered for `p0W`. -/
theorem C2_witness :
    circleW ∈ (Scatter extW propsW ctxW).circles ∧
    ∃ r ∈ cleanData extW propsW.xScale propsW.yScale propsW.series ctxW.item
        (mergeHighlightScope propsW.series.highlightScope)
        (extW.useInteractionItemProps (mergeHighlightScope propsW.series.highlightScope)
          (ctxW.useVoronoiInteraction || propsW.series.disableHover.getD false)),
      ∃ p, propsW.series.data.get? r.dataIndex = Option.some p ∧
        r.x = getValueToPositionMapper propsW.xScale p.x ∧
        r.y = getValueToPositionMapper propsW.yScale p.y ∧
        circleW.transform = (r.x, r.y) :=
  ⟨List.Mem.head _, C2_position_eq_mapper extW propsW ctxW circleW (List.Mem.head _)⟩

/-- C3: the per-point record sequence is deterministic — two invocations
of `cleanData` with equal scales, equal series, equal interaction context
and equal external helpers produce equal record sequences; the visual
state depends on no other input. -/
theorem C3_deterministic {Item P : Type} (e₁ e₂ : Externals Item P)
    (x₁ x₂ y₁ y₂ : D3Scale) (s₁ s₂ : DefaultizedScatterSeriesType)
    (i₁ i₂ : Option Item) (h₁ h₂ : HighlightScope)
    (g₁ g₂ : ScatterItemIdentifier → P)
    (he : e₁ = e₂) (hx : x₁ = x₂) (hy : y₁ = y₂) (hss : s₁ = s₂)
    (hi : i₁ = i₂) (hh : h₁ = h₂) (hg : g₁ = g₂) :
    cleanData e₁ x₁ y₁ s₁ i₁ h₁ g₁ = cleanData e₂ x₂ y₂ s₂ i₂ h₂ g₂ := by
  subst he hx hy hss hi hh hg
  rfl

/-- Witness for C3 at the concrete fixtures. -/
theorem C3_witness :
    cleanData extW xScaleW yScaleW seriesW (Option.some ()) hsW gipW =
      cleanData extW xScaleW yScaleW seriesW (Option.some ()) hsW gipW :=
  C3_deterministic extW extW xScaleW xScaleW yScaleW yScaleW seriesW seriesW
    (Option.some ()) (Option.some ()) hsW hsW gipW gipW rfl rfl rfl rfl rfl rfl rfl

/-- C4: the render never mutates the interaction context — after the full
render pass the interaction context (in particular the currently
pointed-at item) is identical to its state before. -/
theorem C4_context_not_mutated {Item P C : Type} (ext : Externals Item P)
    (props : ScatterProps C) (ctx : InteractionState Item) :
    (renderPass ext props ctx).2.1 = ctx ∧
    (renderPass ext props ctx).2.1.item = ctx.item :=
  ⟨rfl, rfl⟩

/-- C5: the series descriptor is read-only — after the render pass the
series' ordered sequence of data points (each point's x, y and id, in the
original order) is unchanged. -/
theorem C5_series_read_only {Item P C : Type} (ext : Externals Item P)
    (props : ScatterProps C) (ctx : InteractionState Item) :
    (renderPass ext props ctx).2.2.data = props.series.data ∧
    (renderPass ext props ctx).2.2.data.map (fun p => (p.x, p.y, p.id)) =
      props.series.data.map (fun p => (p.x, p.y, p.id)) :=
  ⟨rfl, rfl⟩

/-- C6: the rendering function returns a single group with one circle per
retained point; every circle's fill equals the given color; a click
handler is attached if and only if the callback is provided, and when it
fires it hands the callback the item identifier of exactly the point the
circle renders — type `'scatter'`, the series id, and that point's data
index; the cursor is `'pointer'` exactly when the callback is provided
(`'unset'` otherwise). -/
theorem C6_output_circles {Item P C : Type} (ext : Externals Item P)
    (props : ScatterProps C) (ctx : InteractionState Item) :
    (Scatter ext props ctx).circles.length =
      (cleanData ext props.xScale props.yScale props.series ctx.item
        (mergeHighlightScope props.series.highlightScope)
        (ext.useInteractionItemProps (mergeHighlightScope props.series.highlightScope)
          (ctx.useVoronoiInteraction || props.series.disableHover.getD false))).length ∧
    ∀ c ∈ (Scatter ext props ctx).circles,
      c.fill = props.color ∧
      (c.onClick.isSome ↔ props.onItemClick.isSome) ∧
      (c.cursor = "pointer" ↔ props.onItemClick.isSome) ∧
      (props.onItemClick = Option.none → c.cursor = "unset") ∧
      ∃ r ∈ cleanData ext props.xScale props.yScale props.series ctx.item
          (mergeHighlightScope props.series.highlightScope)
          (ext.useInteractionItemProps (mergeHighlightScope props.series.highlightScope)
            (ctx.useVoronoiInteraction || props.series.disableHover.getD false)),
        c = renderCircle props.markerSize props.color props.series.id
          props.onItemClick r ∧
        ∀ cb pid, c.onClick = Option.some (cb, pid) →
          props.onItemClick = Option.some cb ∧ pid.type = "scatter" ∧
          pid.seriesId = props.series.id ∧ pid.dataIndex = r.dataIndex ∧
          r.dataIndex < props.series.data.length := by
  constructor
  · simp [Scatter]
  · intro c hc
    rcases mem_Scatter_circles.mp hc with ⟨r, hr, hcr⟩
    subst hcr
    refine ⟨rfl, ?_, ?_, ?_, r, hr, rfl, ?_⟩
    · cases props.onItemClick <;> simp [renderCircle]
    · cases props.onItemClick <;> simp [renderCircle]
    · intro h
      simp [renderCircle, h]
    · intro cb pid hck
      rcases mem_cleanData.mp hr with ⟨j, p, hp, hstep⟩
      have hf := cleanStep_some_fields hstep
      simp only [renderCircle] at hck
      rcases Option.map_eq_some'.mp hck with ⟨cb', hcb', heq⟩
      injection heq with h1 h2
      subst h1
      subst h2
      refine ⟨hcb', rfl, rfl, rfl, ?_⟩
      rw [hf.2.2.2.1]
      obtain ⟨hlt, -⟩ := List.get?_eq_some.mp hp
      exact hlt

/-- Witness for C6 at the concrete circle rendered for `p0W`. -/
theorem C6_witness :
    circleW ∈ (Scatter extW propsW ctxW).circles ∧
    (circleW.fill = propsW.color ∧
      (circleW.onClick.isSome ↔ propsW.onItemClick.isSome) ∧
      (circleW.cursor = "pointer" ↔ propsW.onItemClick.isSome) ∧
      (propsW.onItemClick = Option.none → circleW.cursor = "unset") ∧
      ∃ r ∈ cleanData extW propsW.xScale propsW.yScale propsW.series ctxW.item
          (mergeHighlightScope propsW.series.highlightScope)
          (extW.useInteractionItemProps (mergeHighlightScope propsW.series.highlightScope)
            (ctxW.useVoronoiInteraction || propsW.series.disableHover.getD false)),
        circleW = renderCircle propsW.markerSize propsW.color propsW.series.id
          propsW.onItemClick r ∧
        ∀ cb pid, circleW.onClick = Option.some (cb, pid) →
          propsW.onItemClick = Option.some cb ∧ pid.type = "scatter" ∧
          pid.seriesId = propsW.series.id ∧ pid.dataIndex = r.dataIndex ∧
          r.dataIndex < propsW.series.data.length) :=
  ⟨List.Mem.head _,
    (C6_output_circles extW propsW ctxW).2 circleW (List.Mem.head _)⟩

/-- C7: the memoized per-point records are recomputed whenever any
dependency changes and are therefore semantically transparent — under the
`useMemo` cache invariant (the cached value was computed from the cached
dependency tuple, and a dependency hit means the tuples are equal), the
records used for rendering equal the records freshly computed from the
current scales, series data and interaction context. -/
theorem C7_memo_transparent {Item P : Type} (ext : Externals Item P)
    (xScale yScale : D3Scale) (series : DefaultizedScatterSeriesType)
    (item : Option Item) (hs : HighlightScope) (gip : ScatterItemIdentifier → P)
    (cell : Option (MemoCell (CleanDeps Item P) (List (CleanPoint P))))
    (hit : Bool)
    (hinv : ∀ cl, cell = Option.some cl → cl.value = cleanDataOfDeps ext cl.deps)
    (hdeps : hit = true → ∀ cl, cell = Option.some cl →
      cl.deps = (xScale, yScale, series.data, series.id, item, hs, gip)) :
    (useMemo (cleanDataOfDeps ext)
        (xScale, yScale, series.data, series.id, item, hs, gip) cell hit).1 =
      cleanData ext xScale yScale series item hs gip := by
  have hfresh :
      cleanDataOfDeps ext (xScale, yScale, series.data, series.id, item, hs, gip) =
        cleanData ext xScale yScale series item hs gip := by
    unfold cleanDataOfDeps
    exact cleanData_only_reads_id_data xScale yScale _ series rfl rfl
  cases cell with
  | none => simpa [useMemo] using hfresh
  | some cl =>
      cases hit with
      | false => simpa [useMemo] using hfresh
      | true =>
          have h1 := hinv cl rfl
          have h2 := hdeps rfl cl rfl
          simp [useMemo, h1, h2, hfresh]

/-- Witness for C7 with an empty cache (first render). -/
theorem C7_witness :
    (∀ cl, (Option.none :
        Option (MemoCell (CleanDeps Unit Unit) (List (CleanPoint Unit)))) =
        Option.some cl → cl.value = cleanDataOfDeps extW cl.deps) ∧
    (useMemo (cleanDataOfDeps extW)
        (xScaleW, yScaleW, seriesW.data, seriesW.id, Option.some (), hsW, gipW)
        Option.none false).1 =
      cleanData extW xScaleW yScaleW seriesW (Option.some ()) hsW gipW :=
  ⟨fun _ h => Option.noConfusion h,
    C7_memo_transparent extW xScaleW yScaleW seriesW (Option.some ()) hsW gipW
      Option.none false (fun _ h => Option.noConfusion h)
      (fun h => Bool.noConfusion h)⟩

/-- C8: no record is both highlighted and faded — `isFaded` is computed
under `!isHighlighted`, so a highlighted record always has
`isFaded = false`. -/
theorem C8_not_both_flags {Item P : Type} (ext : Externals Item P)
    (xScale yScale : D3Scale) (series : DefaultizedScatterSeriesType)
    (item : Option Item) (hs : HighlightScope) (gip : ScatterItemIdentifier → P) :
    ∀ r ∈ cleanData ext xScale yScale series item hs gip,
      (r.isHighlighted && r.isFaded) = false ∧
      (r.isHighlighted = true → r.isFaded = false) := by
  intro r hr
  rcases mem_cleanData.mp hr with ⟨j, p, hp, hstep⟩
  have h := (cleanStep_some_fields hstep).2.2.2.2.2.1
  cases hh : r.isHighlighted with
  | false => simp
  | true =>
      rw [hh] at h
      simp only [Bool.not_true, Bool.false_and] at h
      simp [h]

/-- Witness for C8 at the concrete highlighted record `recordW`. -/
theorem C8_witness :
    recordW ∈ cleanData extW xScaleW yScaleW seriesW (Option.some ()) hsW gipW ∧
    ((recordW.isHighlighted && recordW.isFaded) = false ∧
      (recordW.isHighlighted = true → recordW.isFaded = false)) :=
  ⟨by decide,
    C8_not_both_flags extW xScaleW yScaleW seriesW (Option.some ()) hsW gipW
      recordW (by decide)⟩

/-- C9: the output preserves input order and identity — the sequence of
`(dataIndex, id)` pairs of the records is a subsequence (in order) of the
enumerated input data, each record's `dataIndex` points at the input point
carrying its `id`, and there are at most as many records as input
points. -/
theorem C9_order_and_identity {Item P : Type} (ext : Externals Item P)
    (xScale yScale : D3Scale) (series : DefaultizedScatterSeriesType)
    (item : Option Item) (hs : HighlightScope) (gip : ScatterItemIdentifier → P) :
    List.Sublist
      ((cleanData ext xScale yScale series item hs gip).map
        (fun r => (r.dataIndex, r.id)))
      (series.data.enum.map (fun q => (q.1, q.2.id))) ∧
    (∀ r ∈ cleanData ext xScale yScale series item hs gip,
      ∃ p, series.data.get? r.dataIndex = Option.some p ∧ r.id = p.id) ∧
    (cleanData ext xScale yScale series item hs gip).length ≤
      series.data.length := by
  have hsub : List.Sublist
      ((cleanData ext xScale yScale series item hs gip).map
        (fun r => (r.dataIndex, r.id)))
      (series.data.enum.map (fun q => (q.1, q.2.id))) := by
    unfold cleanData getValueToPositionMapper
    exact cleanLoop_key_sublist series.data 0
  refine ⟨hsub, ?_, ?_⟩
  · intro r hr
    rcases mem_cleanData.mp hr with ⟨j, p, hp, hstep⟩
    have hf := cleanStep_some_fields hstep
    refine ⟨p, ?_, hf.2.2.1⟩
    rw [hf.2.2.2.1]
    exact hp
  · have h := hsub.length_le
    rwa [List.length_map, List.length_map, List.enum_length] at h

/-- Witness for C9 at the concrete fixtures. -/
theorem C9_witness :
    List.Sublist
      ((cleanData extW xScaleW yScaleW seriesW (Option.some ()) hsW gipW).map
        (fun r => (r.dataIndex, r.id)))
      (seriesW.data.enum.map (fun q => (q.1, q.2.id))) ∧
    (∃ p, seriesW.data.get? recordW.dataIndex = Option.some p ∧
      recordW.id = p.id) ∧
    (cleanData extW xScaleW yScaleW seriesW (Option.some ()) hsW gipW).length ≤
      seriesW.data.length :=
  ⟨(C9_order_and_identity extW xScaleW yScaleW seriesW (Option.some ()) hsW gipW).1,
    (C9_order_and_identity extW xScaleW yScaleW seriesW (Option.some ()) hsW
      gipW).2.1 recordW (by decide),
    (C9_order_and_identity extW xScaleW yScaleW seriesW (Option.some ()) hsW
      gipW).2.2⟩

/-- C10: the effective highlight scope is the series scope merged over the
defaults `{ highlighted: 'item', faded: 'global' }` — an omitted field
takes the default, a present field overrides it — and the same merged
scope is used for the highlighted flag, the faded flag and the interaction
props of every record of the series. -/
theorem C10_merged_scope {Item P C : Type} (ext : Externals Item P)
    (props : ScatterProps C) (ctx : InteractionState Item) :
    (mergeHighlightScope Option.none =
      { highlighted := HighlightOpt.item, faded := HighlightOpt.global }) ∧
    (∀ q : HighlightScopeInput,
      (q.highlighted = Option.none →
        (mergeHighlightScope (Option.some q)).highlighted = HighlightOpt.item) ∧
      (∀ v, q.highlighted = Option.some v →
        (mergeHighlightScope (Option.some q)).highlighted = v) ∧
      (q.faded = Option.none →
        (mergeHighlightScope (Option.some q)).faded = HighlightOpt.global) ∧
      (∀ v, q.faded = Option.some v →
        (mergeHighlightScope (Option.some q)).faded = v)) ∧
    (∀ r ∈ cleanData ext props.xScale props.yScale props.series ctx.item
        (mergeHighlightScope props.series.highlightScope)
        (ext.useInteractionItemProps (mergeHighlightScope props.series.highlightScope)
          (ctx.useVoronoiInteraction || props.series.disableHover.getD false)),
      r.isHighlighted = ext.getIsHighlighted ctx.item
        { type := "scatter", seriesId := props.series.id, dataIndex := r.dataIndex }
        (mergeHighlightScope props.series.highlightScope) ∧
      r.isFaded = (!r.isHighlighted && ext.getIsFaded ctx.item
        { type := "scatter", seriesId := props.series.id, dataIndex := r.dataIndex }
        (mergeHighlightScope props.series.highlightScope)) ∧
      r.interactionProps = ext.useInteractionItemProps
        (mergeHighlightScope props.series.highlightScope)
        (ctx.useVoronoiInteraction || props.series.disableHover.getD false)
        { type := "scatter", seriesId := props.series.id,
          dataIndex := r.dataIndex }) := by
  refine ⟨rfl, ?_, ?_⟩
  · intro q
    exact ⟨fun h => by simp [mergeHighlightScope, h],
      fun v h => by simp [mergeHighlightScope, h],
      fun h => by simp [mergeHighlightScope, h],
      fun v h => by simp [mergeHighlightScope, h]⟩
  · intro r hr
    rcases mem_cleanData.mp hr with ⟨j, p, hp, hstep⟩
    have hf := cleanStep_some_fields hstep
    rw [hf.2.2.2.1]
    exact ⟨hf.2.2.2.2.1, hf.2.2.2.2.2.1, hf.2.2.2.2.2.2⟩

/-- Witness for C10 at the concrete record `recordW` of the fixture
render. -/
theorem C10_witness :
    recordW ∈ cleanData extW propsW.xScale propsW.yScale propsW.series ctxW.item
      (mergeHighlightScope propsW.series.highlightScope)
      (extW.useInteractionItemProps (mergeHighlightScope propsW.series.highlightScope)
        (ctxW.useVoronoiInteraction || propsW.series.disableHover.getD false)) ∧
    (recordW.isHighlighted = extW.getIsHighlighted ctxW.item
      { type := "scatter", seriesId := propsW.series.id,
        dataIndex := recordW.dataIndex }
      (mergeHighlightScope propsW.series.highlightScope) ∧
    recordW.isFaded = (!recordW.isHighlighted && extW.getIsFaded ctxW.item
      { type := "scatter", seriesId := propsW.series.id,
        dataIndex := recordW.dataIndex }
      (mergeHighlightScope propsW.series.highlightScope)) ∧
    recordW.interactionProps = extW.useInteractionItemProps
      (mergeHighlightScope propsW.series.highlightScope)
      (ctxW.useVoronoiInteraction || propsW.series.disableHover.getD false)
      { type := "scatter", seriesId := propsW.series.id,
        dataIndex := recordW.dataIndex }) :=
  ⟨by decide, (C10_merged_scope extW propsW ctxW).2.2 recordW (by decide)⟩

end ScatterChart
